import Mathlib

/-!
# QuoteBox: the quote generation client and the request handlers

A shallow embedding of `internal/client/openrouter.go`, `internal/metrics/metrics.go`,
`internal/models/quote.go`, and of `CreateQuote` and the limit handling of `GetQuotes`
in `internal/app/handlers/quote.go`.

Conventions of the embedding:

* a Go `string` holding decoded text is a Lean `String`; Go's `len` on it is the
  length in bytes of its UTF-8 encoding, `String.utf8ByteSize`;
* a raw response body is a list of bytes, and `string(body)` keeps those bytes;
* a Go `(value, error)` result is a pair whose second component is `none` for `nil`;
* mutable process state (the Prometheus metrics, the clock waits) is threaded
  explicitly through a `World`; `log.Printf` output is not part of the state;
* the HTTP transport, `encoding/json` and `net/http` are parameters (`Upstream`);
  the JSON decoder of the request body, the clock, the UUID source and the outcome
  of the database insert are parameters too (`Host`).
-/

namespace QuoteBox

/-! ## Package `metrics` -/

/-- The Prometheus collectors declared in `metrics.go`, by their current values.
Labelled counters are kept as the list of label tuples that were incremented. -/
structure Metrics where
  QuotesFetchedTotal : Nat
  QuotesByTag : List String
  QuoteFetchErrorsTotal : Nat
  QuoteFetchLatency : List Rat
  HTTPRequestsTotal : List (String × String × String)
  OpenRouterUp : Int
  deriving DecidableEq, Repr

/-- The process state the client and the handlers act on. `calls` is a ghost counter
of the `makeRequest` invocations made so far; `sleeps` lists the `time.Sleep`
durations in milliseconds, most recent first. -/
structure World where
  metrics : Metrics
  calls : Nat
  sleeps : List Nat
  deriving DecidableEq, Repr

/-- Go `metrics.Init`: the gauge starts at 0. -/
def Metrics.Init (m : Metrics) : Metrics :=
  { m with OpenRouterUp := 0 }

/-- Go `metrics.SetOpenRouterStatus`. -/
def SetOpenRouterStatus (up : Bool) (w : World) : World :=
  if up then
    { w with metrics := { w.metrics with OpenRouterUp := 1 } }
  else
    { w with metrics := { w.metrics with OpenRouterUp := 0 } }

/-- Go `time.Sleep`, with the duration in milliseconds. -/
def Sleep (ms : Nat) (w : World) : World :=
  { w with sleeps := ms :: w.sleeps }

/-! ## Package `client`: data -/

/-- Raw bytes, as returned by `io.ReadAll`. -/
abbrev Bytes := List (Fin 256)

structure OpenRouterClient where
  APIKey : String
  Model : String
  BaseURL : String
  deriving DecidableEq, Repr

structure Message where
  Role : String
  Content : String
  deriving DecidableEq, Repr

/-- Go `ChatCompletionRequest`; `Temperature` holds the decimal literal of the source. -/
structure ChatCompletionRequest where
  Model : String
  Messages : List Message
  Temperature : Rat
  MaxTokens : Int
  deriving DecidableEq, Repr

structure Choice where
  Message : Message
  FinishReason : String
  deriving DecidableEq, Repr

/-- Go `APIError`; the field `Type` of the source is `Type_` here. -/
structure APIError where
  Message : String
  Type_ : String
  Code : String
  deriving DecidableEq, Repr

/-- Go `ChatCompletionResponse`; the `*APIError` pointer is an `Option`. -/
structure ChatCompletionResponse where
  ID : String
  Choices : List Choice
  Error : Option APIError
  deriving DecidableEq, Repr

/-- Go `HTTPError`; `Message` is `string(body)`, so it keeps the raw bytes. -/
structure HTTPError where
  StatusCode : Int
  Message : Bytes
  deriving DecidableEq, Repr

/-- A Go `error` value as `makeRequest` can produce it: either a `*HTTPError`, or a
value built by `fmt.Errorf`, identified by its message text. -/
inductive GoError where
  | http (e : HTTPError)
  | errorf (msg : String)
  deriving DecidableEq, Repr

/-- The request handed to `HTTPClient.Do`. -/
structure HTTPRequest where
  Method : String
  URL : String
  Body : Bytes
  Header : List (String × String)
  deriving DecidableEq, Repr

/-- What one `HTTPClient.Do` followed by `io.ReadAll` can yield. -/
inductive RoundTrip where
  | doError (err : String)
  | readError (status : Int) (err : String)
  | response (status : Int) (body : Bytes)
  deriving DecidableEq, Repr

/-- The libraries and the remote service the client talks to.
`marshal` is `json.Marshal`, `newRequestErr` the error of `http.NewRequest` (if any)
for a method and URL, `roundTrip n` the outcome of the transport on the `n`-th
invocation of `makeRequest` (counted from 0), `unmarshal` is `json.Unmarshal` into a
`ChatCompletionResponse`. -/
structure Upstream where
  marshal : ChatCompletionRequest → Except String Bytes
  newRequestErr : String → String → Option String
  roundTrip : Nat → HTTPRequest → RoundTrip
  unmarshal : Bytes → Except String ChatCompletionResponse

/-- Go `http.StatusOK`. -/
def StatusOK : Int := 200

/-- Go `len` of a string: its number of bytes. -/
def len (s : String) : Nat := s.utf8ByteSize

/-! ## Package `client`: operations -/

/-- Go `isRetryableError`: a type assertion to `*HTTPError`, then the status test. -/
def isRetryableError (err : GoError) : Bool :=
  match err with
  | .http httpErr =>
    httpErr.StatusCode == 429 || (httpErr.StatusCode ≥ 500 && httpErr.StatusCode < 600)
  | .errorf _ => false

/-- The HTTP request `makeRequest` assembles from the marshalled body. -/
def httpRequest (c : OpenRouterClient) (jsonData : Bytes) : HTTPRequest :=
  { Method := "POST",
    URL := c.BaseURL ++ "/chat/completions",
    Body := jsonData,
    Header := [("Content-Type", "application/json"),
               ("Authorization", "Bearer " ++ c.APIKey)] }

/-- Go `(*OpenRouterClient).makeRequest`. -/
def makeRequest (up : Upstream) (c : OpenRouterClient) (request : ChatCompletionRequest)
    (w : World) : (String × Option GoError) × World :=
  let n := w.calls
  let w := { w with calls := w.calls + 1 }
  match up.marshal request with
  | .error err => (("", some (.errorf ("failed to marshal request: " ++ err))), w)
  | .ok jsonData =>
    let url := c.BaseURL ++ "/chat/completions"
    match up.newRequestErr "POST" url with
    | some err => (("", some (.errorf ("failed to create request: " ++ err))), w)
    | none =>
      match up.roundTrip n (httpRequest c jsonData) with
      | .doError err => (("", some (.errorf ("request failed: " ++ err))), w)
      | .readError _ err =>
        (("", some (.errorf ("failed to read response body: " ++ err))), w)
      | .response statusCode body =>
        if statusCode ≠ StatusOK then
          (("", some (.http { StatusCode := statusCode, Message := body })), w)
        else
          match up.unmarshal body with
          | .error err =>
            (("", some (.errorf ("failed to unmarshal response: " ++ err))), w)
          | .ok response =>
            match response.Error with
            | some apiErr => (("", some (.errorf ("API error: " ++ apiErr.Message))), w)
            | none =>
              match response.Choices with
              | [] => (("", some (.errorf "no choices returned from API")), w)
              | first :: _ =>
                let quote := first.Message.Content
                if len quote < 10 then
                  (("", some (.errorf "generated quote is invalid or too short")), w)
                else
                  ((quote, none), w)

/-- The request `GenerateQuote` builds for a tag. -/
def buildRequest (c : OpenRouterClient) (tag : String) : ChatCompletionRequest :=
  let prompt :=
    "Generate a meaningful inspirational quote about " ++ tag ++ ". " ++
    "The quote should be 1-2 sentences, insightful, and motivational. " ++
    "Only return the quote text itself without any introduction or explanation."
  { Model := c.Model,
    Messages :=
      [ { Role := "system",
          Content := "You are a wise philosopher who creates short, meaningful quotes. Always respond with only the quote text, nothing else." },
        { Role := "user", Content := prompt } ],
    Temperature := 8 / 10,
    MaxTokens := 150 }

/-- The code after the retry loop of `GenerateQuote`. -/
def GenerateQuote.giveUp (lastErr : Option GoError) (w : World) :
    (String × Option GoError) × World :=
  (("", lastErr), SetOpenRouterStatus false w)

/-- The retry loop of `GenerateQuote`, `for attempt := 0; attempt < 2; attempt++`,
with `remaining = 2 - attempt` iterations still allowed. -/
def GenerateQuote.loop (up : Upstream) (c : OpenRouterClient)
    (request : ChatCompletionRequest) :
    (remaining : Nat) → (lastErr : Option GoError) → World →
      (String × Option GoError) × World
  | 0, lastErr, w => GenerateQuote.giveUp lastErr w
  | remaining + 1, _, w =>
    let attempt := 2 - (remaining + 1)
    let w := if attempt > 0 then Sleep 500 w else w
    match makeRequest up c request w with
    | ((quote, none), w) => ((quote, none), SetOpenRouterStatus true w)
    | ((_, some err), w) =>
      if !isRetryableError err then
        GenerateQuote.giveUp (some err) w
      else
        GenerateQuote.loop up c request remaining (some err) w

/-- Go `(*OpenRouterClient).GenerateQuote`. -/
def GenerateQuote (up : Upstream) (c : OpenRouterClient) (tag : String) (w : World) :
    (String × Option GoError) × World :=
  GenerateQuote.loop up c (buildRequest c tag) 2 none w

/-! ## Go `strconv.Atoi` -/

/-- The `Err` field of a `*strconv.NumError`. -/
inductive NumError where
  | ErrSyntax
  | ErrRange
  deriving DecidableEq, Repr

/-- The digit loop of Go `strconv.ParseUint` for base 10 and 64 bits: a character that
is no decimal digit is a syntax error, and leaving the `uint64` range is a range
error, whichever comes first. -/
def ParseUint.loop : List Char → Nat → Except NumError Nat
  | [], n => .ok n
  | ch :: rest, n =>
    if '0' ≤ ch ∧ ch ≤ '9' then
      let d := ch.toNat - '0'.toNat
      if n ≥ (2 ^ 64 - 1) / 10 + 1 then
        .error .ErrRange
      else
        let n1 := n * 10 + d
        if n1 > 2 ^ 64 - 1 then
          .error .ErrRange
        else
          ParseUint.loop rest n1
    else
      .error .ErrSyntax

/-- Go `strconv.ParseUint(s, 10, 64)`, on the characters of `s`. -/
def ParseUint (s : List Char) : Nat × Option NumError :=
  if s = [] then
    (0, some .ErrSyntax)
  else
    match ParseUint.loop s 0 with
    | .ok n => (n, none)
    | .error .ErrSyntax => (0, some .ErrSyntax)
    | .error .ErrRange => (2 ^ 64 - 1, some .ErrRange)

/-- Go `strconv.Atoi` where `int` has 64 bits, that is `strconv.ParseInt(s, 10, 0)`:
an optional sign, then decimal digits; the value is returned together with the error,
and a value outside the `int64` range is a range error. -/
def Atoi (s : String) : Int × Option NumError :=
  match s.data with
  | [] => (0, some .ErrSyntax)
  | c0 :: rest =>
    let neg : Bool := c0 = '-'
    let digits := if c0 = '+' ∨ c0 = '-' then rest else c0 :: rest
    match ParseUint digits with
    | (_, some .ErrSyntax) => (0, some .ErrSyntax)
    | (un, _) =>
      if !neg && un ≥ 2 ^ 63 then
        (2 ^ 63 - 1, some .ErrRange)
      else if neg && un > 2 ^ 63 then
        (-(2 ^ 63), some .ErrRange)
      else
        (if neg then -(un : Int) else (un : Int), none)

/-! ## Package `handlers`: `GetQuotes` -/

/-- The part of a `gin.Context` that the handlers read: the parsed URL query, as key
and value pairs in their order of appearance, the raw request body, the address that
`ClientIP` reports and the request headers. -/
structure Context where
  query : List (String × String)
  body : Bytes := []
  clientIP : String := ""
  header : List (String × String) := []
  deriving DecidableEq, Repr

/-- Gin `Context.GetQuery`: the first value given for the key, if any. -/
def Context.GetQuery (c : Context) (key : String) : Option String :=
  (c.query.find? fun kv => kv.1 == key).map Prod.snd

/-- Gin `Context.Query`: the value, or the empty string when the key is absent. -/
def Context.Query (c : Context) (key : String) : String :=
  match c.GetQuery key with
  | some value => value
  | none => ""

/-- Gin `Context.DefaultQuery`: the value, or the default when the key is absent. -/
def Context.DefaultQuery (c : Context) (key defaultValue : String) : String :=
  match c.GetQuery key with
  | some value => value
  | none => defaultValue

/-- The query `GetQuotes` hands to the store: `Order`, `Limit` and the optional
`Where("tag = ?", tag)`. -/
structure StoreQuery where
  order : String
  limit : Int
  whereTag : Option String
  deriving DecidableEq, Repr

/-- The query built by Go `(*QuoteHandler).GetQuotes` before it calls `Find`. -/
def GetQuotes.storeQuery (c : Context) : StoreQuery :=
  let tag := c.Query "tag"
  let limitStr := c.DefaultQuery "limit" "20"
  let (limit, err) := Atoi limitStr
  let limit := if err ≠ none ∨ limit < 1 then 20 else limit
  let limit := if limit > 100 then 100 else limit
  { order := "created_at DESC",
    limit := limit,
    whereTag := if tag ≠ "" then some tag else none }

/-- A request context whose query string carries only `limit=s`. -/
def limitContext (s : String) : Context :=
  { query := [("limit", s)] }

/-! ## Package `models` -/

/-- Go `models.Quote`; the UUID is kept as its text, the creation time as a number. -/
structure Quote where
  ID : String
  Tag : String
  TagSource : String
  QuoteText : String
  Author : Option String
  Source : String
  CreatedAt : Int
  LatencyMs : Int
  ClientIP : String
  UserAgent : String
  deriving DecidableEq, Repr

/-- Go `uuid.Nil`. -/
def uuidNil : String := "00000000-0000-0000-0000-000000000000"

/-- Go `(*Quote).BeforeCreate`, with the value that `uuid.New()` would return. -/
def Quote.BeforeCreate (q : Quote) (newID : String) : Quote :=
  if q.ID = uuidNil then { q with ID := newID } else q

/-- Go `models.ValidTags`. -/
def ValidTags : List String :=
  ["joy", "sadness", "anger", "fear", "surprise", "love", "gratitude", "resilience",
   "optimism", "melancholy", "confidence", "anxiety", "curiosity", "hope", "calm",
   "nostalgia", "wonder", "determination", "humor", "serenity", "loneliness", "pride",
   "forgiveness", "humility", "ambition", "compassion", "playful", "boredom", "zeal",
   "contentment"]

/-- The `range` loop of Go `models.IsValidTag` over the remaining tags. -/
def IsValidTag.loop (tag : String) : List String → Bool
  | [] => false
  | validTag :: rest => if tag == validTag then true else IsValidTag.loop tag rest

/-- Go `models.IsValidTag`. -/
def IsValidTag (tag : String) : Bool :=
  IsValidTag.loop tag ValidTags

/-- Go `models.GetTagSource`. -/
def GetTagSource (tag : String) : String :=
  if IsValidTag tag then "preset" else "custom"

/-! ## Package `metrics`: the recorders used by `CreateQuote` -/

/-- Go `metrics.RecordQuoteFetched`. -/
def RecordQuoteFetched (tag : String) (w : World) : World :=
  { w with metrics :=
      { w.metrics with
        QuotesFetchedTotal := w.metrics.QuotesFetchedTotal + 1,
        QuotesByTag := tag :: w.metrics.QuotesByTag } }

/-- Go `metrics.RecordQuoteError`. -/
def RecordQuoteError (w : World) : World :=
  { w with metrics :=
      { w.metrics with QuoteFetchErrorsTotal := w.metrics.QuoteFetchErrorsTotal + 1 } }

/-- Go `metrics.RecordLatency`; the observed seconds are kept as an exact fraction. -/
def RecordLatency (seconds : Rat) (w : World) : World :=
  { w with metrics :=
      { w.metrics with QuoteFetchLatency := seconds :: w.metrics.QuoteFetchLatency } }

/-! ## Go `strings.TrimSpace` -/

/-- Go `unicode.IsSpace`: the Latin-1 switch, then the `White_Space` table. -/
def IsSpace (r : Char) : Bool :=
  let u := r.toNat
  if u ≤ 0xFF then
    u == 0x09 || u == 0x0A || u == 0x0B || u == 0x0C || u == 0x0D || u == 0x20 ||
      u == 0x85 || u == 0xA0
  else
    u == 0x1680 || (0x2000 ≤ u && u ≤ 0x200A) || u == 0x2028 || u == 0x2029 ||
      u == 0x202F || u == 0x205F || u == 0x3000

/-- Go `strings.TrimSpace` on valid UTF-8 text: the leading white space is dropped,
then the trailing white space. -/
def TrimSpace (s : String) : String :=
  ⟨((s.data.dropWhile IsSpace).reverse.dropWhile IsSpace).reverse⟩

/-! ## Package `handlers`: `CreateQuote` -/

structure QuoteHandler where
  OpenRouterClient : OpenRouterClient
  deriving DecidableEq, Repr

structure CreateQuoteRequest where
  Tag : String
  Requestor : String
  deriving DecidableEq, Repr

structure QuoteResponse where
  ID : String
  Tag : String
  Quote : String
  Author : Option String
  Source : String
  CreatedAt : Int
  deriving DecidableEq, Repr

structure ErrorResponse where
  Error : String
  Message : String
  deriving DecidableEq, Repr

/-- The value a handler passes to `c.JSON`. -/
inductive ResponseBody where
  | error (e : ErrorResponse)
  | quote (q : QuoteResponse)
  deriving DecidableEq, Repr

/-- The status and body a handler passes to `c.JSON`. -/
structure Response where
  status : Int
  body : ResponseBody
  deriving DecidableEq, Repr

/-- Go `http.StatusBadRequest`. -/
def StatusBadRequest : Int := 400

/-- Go `http.StatusServiceUnavailable`. -/
def StatusServiceUnavailable : Int := 503

/-- Go `http.StatusInternalServerError`. -/
def StatusInternalServerError : Int := 500

/-- The table behind `db.DB`. `rows` are the persisted records in insertion order;
`handed` is a ghost list of every record passed to `Create`, most recent first. -/
structure Store where
  rows : List Quote
  handed : List Quote
  deriving DecidableEq, Repr

/-- The state a handler acts on: the process state of the client and the table. -/
structure App where
  world : World
  db : Store
  deriving DecidableEq, Repr

/-- What `CreateQuote` takes from its surroundings. `decodeJSON` is the JSON decoding
of a request body into a `CreateQuoteRequest`, `since` the nanoseconds that
`time.Since(startTime)` reports, `now` the `time.Now()` stored as `CreatedAt`,
`newUUID` the value of `uuid.New()`, and `createErr` the error of the insert that
`db.DB.Create` performs, if any. -/
structure Host where
  decodeJSON : Bytes → Except String CreateQuoteRequest
  since : Nat
  now : Int
  newUUID : String
  createErr : Quote → Option String

/-- Gin `ShouldBindJSON` into a `CreateQuoteRequest`: the body is decoded, then the
`binding:"required"` tag of the field `Tag` rejects the zero value, the empty string. -/
def ShouldBindJSON (host : Host) (c : Context) : Except String CreateQuoteRequest :=
  match host.decodeJSON c.body with
  | .error err => .error err
  | .ok req =>
    if req.Tag = "" then
      .error "Key: 'CreateQuoteRequest.Tag' Error:Field validation for 'Tag' failed on the 'required' tag"
    else
      .ok req

/-- Gin `Context.GetHeader`: the first value of the header, or the empty string. -/
def Context.GetHeader (c : Context) (key : String) : String :=
  match c.header.find? fun kv => kv.1 == key with
  | some kv => kv.2
  | none => ""

/-- Gorm `db.DB.Create(&quote)`: the `BeforeCreate` hook runs, then the row is
inserted unless the insert fails. Returns the record as the hook left it and the
error. -/
def Store.Create (host : Host) (db : Store) (quote : Quote) :
    (Quote × Option String) × Store :=
  let q := quote.BeforeCreate host.newUUID
  match host.createErr q with
  | some err => ((q, some err), { db with handed := quote :: db.handed })
  | none => ((q, none), { rows := db.rows ++ [q], handed := quote :: db.handed })

/-- Go `(*QuoteHandler).CreateQuote`. -/
def CreateQuote (host : Host) (up : Upstream) (h : QuoteHandler) (c : Context)
    (a : App) : Response × App :=
  match ShouldBindJSON host c with
  | .error err =>
    ({ status := StatusBadRequest,
       body := .error { Error := "invalid_request",
                        Message := "Invalid JSON format: " ++ err } }, a)
  | .ok req =>
    let req := { req with Tag := TrimSpace req.Tag }
    if req.Tag = "" then
      ({ status := StatusBadRequest,
         body := .error { Error := "invalid_tag", Message := "Tag cannot be empty" } }, a)
    else if len req.Tag > 50 then
      ({ status := StatusBadRequest,
         body := .error { Error := "invalid_tag",
                          Message := "Tag must be 50 characters or less" } }, a)
    else
      match GenerateQuote up h.OpenRouterClient req.Tag a.world with
      | ((_, some _), w) =>
        ({ status := StatusServiceUnavailable,
           body := .error { Error := "quote_generation_failed",
                            Message := "Failed to generate quote. Please try again later." } },
         { a with world := RecordQuoteError w })
      | ((quoteText, none), w) =>
        let latencyMs : Int := ((host.since / 1000000 : Nat) : Int)
        let w := RecordQuoteFetched req.Tag w
        let w := RecordLatency ((host.since : Rat) / 1000000000) w
        let tagSource := GetTagSource req.Tag
        let quote : Quote :=
          { ID := uuidNil,
            Tag := req.Tag,
            TagSource := tagSource,
            QuoteText := quoteText,
            Author := none,
            Source := "openrouter",
            CreatedAt := host.now,
            LatencyMs := latencyMs,
            ClientIP := c.clientIP,
            UserAgent := c.GetHeader "User-Agent" }
        match Store.Create host a.db quote with
        | ((_, some _), db) =>
          ({ status := StatusInternalServerError,
             body := .error { Error := "database_error",
                              Message := "Failed to save quote" } },
           { world := w, db := db })
        | ((quote, none), db) =>
          ({ status := StatusOK,
             body := .quote { ID := quote.ID,
                              Tag := quote.Tag,
                              Quote := quote.QuoteText,
                              Author := quote.Author,
                              Source := quote.Source,
                              CreatedAt := quote.CreatedAt } },
           { world := w, db := db })

/-! ## Vocabulary for the statements -/

/-- The status and body that the `n`-th invocation of `makeRequest` reads from the
upstream, when the request could be built and sent and its response fully read. -/
def Upstream.received (up : Upstream) (c : OpenRouterClient)
    (request : ChatCompletionRequest) (n : Nat) : Option (Int × Bytes) :=
  match up.marshal request with
  | .error _ => none
  | .ok jsonData =>
    match up.newRequestErr "POST" (c.BaseURL ++ "/chat/completions") with
    | some _ => none
    | none =>
      match up.roundTrip n (httpRequest c jsonData) with
      | .response status body => some (status, body)
      | _ => none

/-- An upstream that answers the `n`-th call with `answers n`, and whose JSON decoder
is `decode`; marshalling and request construction succeed. -/
def scripted (answers : Nat → RoundTrip)
    (decode : Bytes → Except String ChatCompletionResponse) : Upstream :=
  { marshal := fun _ => .ok [],
    newRequestErr := fun _ _ => none,
    roundTrip := fun n _ => answers n,
    unmarshal := decode }

/-- A payload with the given choice contents and no error object. -/
def payload (contents : List String) : ChatCompletionResponse :=
  { ID := "gen-1",
    Choices := contents.map fun t =>
      { Message := { Role := "assistant", Content := t }, FinishReason := "stop" },
    Error := none }

/-- A process state right after `metrics.Init`. -/
def World.start : World :=
  { metrics :=
      { QuotesFetchedTotal := 0, QuotesByTag := [], QuoteFetchErrorsTotal := 0,
        QuoteFetchLatency := [], HTTPRequestsTotal := [], OpenRouterUp := 0 },
    calls := 0,
    sleeps := [] }

/-- A client configuration as `NewOpenRouterClient` builds it by default. -/
def testClient : OpenRouterClient :=
  { APIKey := "test-key", Model := "openrouter/auto",
    BaseURL := "https://openrouter.ai/api/v1" }

/-- The value of a list of decimal digits read after the number `n`, or `none` when
some character is no decimal digit. -/
def digitsValue : List Char → Nat → Option Nat
  | [], n => some n
  | ch :: rest, n =>
    if '0' ≤ ch ∧ ch ≤ '9' then
      digitsValue rest (n * 10 + (ch.toNat - '0'.toNat))
    else
      none

/-! ## Scripted upstreams used as concrete inputs -/

/-- HTTP 500 on the first call, HTTP 200 afterwards. -/
def answers500Then200 (n : Nat) : RoundTrip :=
  if n = 0 then .response 500 [] else .response 200 []

/-- HTTP 400 on every call. -/
def answers400 (_ : Nat) : RoundTrip :=
  .response 400 []

/-- HTTP 500 on the first call, HTTP 503 with body `[1]` afterwards. -/
def answers500Then503 (n : Nat) : RoundTrip :=
  if n = 0 then .response 500 [] else .response 503 [1]

/-- A decoder that yields one fixed valid payload. -/
def decodeJoy (_ : Bytes) : Except String ChatCompletionResponse :=
  .ok (payload ["Joy is the simplest form of gratitude."])

/-- HTTP 200 on every call. -/
def answers200 (_ : Nat) : RoundTrip :=
  .response 200 []

/-- HTTP 201 on every call. -/
def answers201 (_ : Nat) : RoundTrip :=
  .response 201 []

/-- A decoder that yields a payload whose only choice has 9 characters and 10 bytes. -/
def decodeNineChars (_ : Bytes) : Except String ChatCompletionResponse :=
  .ok (payload ["Sé feliz."])

/-- A decoder that yields a payload whose only choice is the 5-byte text `Hello`. -/
def decodeHello (_ : Bytes) : Except String ChatCompletionResponse :=
  .ok (payload ["Hello"])

/-- A decoder that yields a payload with an error object and a 5-byte first choice. -/
def decodeErrorAndChoice (_ : Bytes) : Except String ChatCompletionResponse :=
  .ok { payload ["Hello"] with
        Error := some { Message := "quota exceeded", Type_ := "rate", Code := "429" } }

/-- A decoder that yields a payload with no error object and no choices. -/
def decodeNoChoices (_ : Bytes) : Except String ChatCompletionResponse :=
  .ok (payload [])

/-- The record that `CreateQuote` builds once the client has returned a text. -/
def CreateQuote.record (host : Host) (c : Context) (tag quoteText : String) : Quote :=
  { ID := uuidNil,
    Tag := tag,
    TagSource := GetTagSource tag,
    QuoteText := quoteText,
    Author := none,
    Source := "openrouter",
    CreatedAt := host.now,
    LatencyMs := ((host.since / 1000000 : Nat) : Int),
    ClientIP := c.clientIP,
    UserAgent := c.GetHeader "User-Agent" }

/-! ## Concrete inputs for `CreateQuote` -/

/-- A host whose JSON decoder yields a request with the given tag, whose clock
measures 1.5 s, and whose insert succeeds. -/
def hostWithTag (tag : String) : Host :=
  { decodeJSON := fun _ => .ok { Tag := tag, Requestor := "" },
    since := 1500000000,
    now := 1700000000,
    newUUID := "123e4567-e89b-12d3-a456-426614174000",
    createErr := fun _ => none }

/-- The handler of a server built around `testClient`. -/
def testHandler : QuoteHandler :=
  { OpenRouterClient := testClient }

/-- A `POST /api/v1/quote` context. -/
def postContext : Context :=
  { query := [], body := [], clientIP := "203.0.113.7",
    header := [("User-Agent", "curl/8.4.0")] }

/-- A server state right after start-up, with an empty table. -/
def App.start : App :=
  { world := World.start, db := { rows := [], handed := [] } }

/-- A tag of 26 characters and 52 bytes: 26 times the letter `é`. -/
def tag26 : String :=
  "éééééééééééééééééééééééééé"

/-- A tag of 51 characters: 51 times the letter `a`. -/
def tag51 : String :=
  "aaaaaaaaaaaaaaaaaaaaaaaaaaaaaaaaaaaaaaaaaaaaaaaaaaa"

/-- A tag of 50 characters and 50 bytes: 50 times the letter `a`. -/
def tag50 : String :=
  "aaaaaaaaaaaaaaaaaaaaaaaaaaaaaaaaaaaaaaaaaaaaaaaaaa"

/-! ## Basic facts about `makeRequest` -/

theorem makeRequest_world (up : Upstream) (c : OpenRouterClient)
    (request : ChatCompletionRequest) (w : World) :
    (makeRequest up c request w).2 = { w with calls := w.calls + 1 } := by
  unfold makeRequest
  simp only
  repeat' split
  all_goals rfl

theorem makeRequest_of_received (up : Upstream) (c : OpenRouterClient)
    (request : ChatCompletionRequest) (w : World) (status : Int) (body : Bytes)
    (h : up.received c request w.calls = some (status, body)) :
    (makeRequest up c request w).1 =
      if status ≠ StatusOK then
        ("", some (.http { StatusCode := status, Message := body }))
      else
        match up.unmarshal body with
        | .error err => ("", some (.errorf ("failed to unmarshal response: " ++ err)))
        | .ok response =>
          match response.Error with
          | some apiErr => ("", some (.errorf ("API error: " ++ apiErr.Message)))
          | none =>
            match response.Choices with
            | [] => ("", some (.errorf "no choices returned from API"))
            | first :: _ =>
              if len first.Message.Content < 10 then
                ("", some (.errorf "generated quote is invalid or too short"))
              else
                (first.Message.Content, none) := by
  unfold Upstream.received at h
  unfold makeRequest
  simp only
  cases hm : up.marshal request with
  | error e => simp [hm] at h
  | ok jsonData =>
    simp only [hm] at h ⊢
    cases hn : up.newRequestErr "POST" (c.BaseURL ++ "/chat/completions") with
    | some e => simp [hn] at h
    | none =>
      simp only [hn] at h ⊢
      cases hr : up.roundTrip w.calls (httpRequest c jsonData) with
      | doError e => simp [hr] at h
      | readError s e => simp [hr] at h
      | response s b =>
        simp only [hr, Option.some.injEq, Prod.mk.injEq] at h ⊢
        obtain ⟨rfl, rfl⟩ := h
        repeat' split
        all_goals rfl

/-- A successful `makeRequest` returns a text of at least 10 bytes. -/
theorem makeRequest_ok_len (up : Upstream) (c : OpenRouterClient)
    (request : ChatCompletionRequest) (w : World) (q : String)
    (h : (makeRequest up c request w).1 = (q, none)) : 10 ≤ len q := by
  unfold makeRequest at h
  simp only at h
  split at h
  · simp at h
  · split at h
    · simp at h
    · split at h
      · simp at h
      · simp at h
      · split at h
        · simp at h
        · split at h
          · simp at h
          · split at h
            · simp at h
            · split at h
              · simp at h
              · split at h
                · simp at h
                · simp only [Prod.mk.injEq, and_true] at h
                  subst h
                  omega

/-- Every character takes at least one byte in UTF-8. -/
theorem utf8ByteSize_go_ge (cs : List Char) : cs.length ≤ String.utf8ByteSize.go cs := by
  induction cs with
  | nil => simp [String.utf8ByteSize.go]
  | cons c cs ih =>
    have hc : 0 < c.utf8Size := Char.utf8Size_pos c
    simp only [List.length_cons, String.utf8ByteSize.go]
    omega

/-- A string has at least as many bytes as characters. -/
theorem length_le_len (s : String) : s.length ≤ len s := by
  cases s with
  | mk cs => exact utf8ByteSize_go_ge cs

/-! ## `Atoi` on decimal representations -/

theorem digitChar_digit (k : Nat) (hk : k < 10) :
    ('0' ≤ Nat.digitChar k ∧ Nat.digitChar k ≤ '9') ∧
      (Nat.digitChar k).toNat - '0'.toNat = k := by
  interval_cases k <;> decide

theorem digitsValue_toDigitsCore (fuel : Nat) :
    ∀ (n : Nat) (ds : List Char), n < fuel →
      digitsValue (Nat.toDigitsCore 10 fuel n ds) 0 = digitsValue ds n := by
  induction fuel with
  | zero => intro n ds h; omega
  | succ fuel ih =>
    intro n ds h
    have hd := digitChar_digit (n % 10) (Nat.mod_lt _ (by decide))
    simp only [Nat.toDigitsCore]
    by_cases h0 : n / 10 = 0
    · simp only [h0, if_true, digitsValue, hd.1, and_self, hd.2]
      have : n % 10 = n := by omega
      simp [this]
    · simp only [h0, if_false]
      rw [ih (n / 10) _ (by omega)]
      simp only [digitsValue, hd.1, and_self, if_true, hd.2]
      congr 1
      omega

theorem digitsValue_toDigits (n : Nat) : digitsValue (Nat.toDigits 10 n) 0 = some n := by
  unfold Nat.toDigits
  rw [digitsValue_toDigitsCore (n + 1) n [] (by omega)]
  rfl

theorem toDigits_ne_nil (n : Nat) : Nat.toDigits 10 n ≠ [] := by
  unfold Nat.toDigits
  simp only [Nat.toDigitsCore]
  split
  · simp
  · intro h
    have := congrArg List.length h
    rw [Nat.toDigitsCore_lens_eq] at this
    simp at this

theorem digitsValue_ge : ∀ (ds : List Char) (acc v : Nat),
    digitsValue ds acc = some v → acc ≤ v := by
  intro ds
  induction ds with
  | nil => intro acc v h; simp [digitsValue] at h; omega
  | cons ch rest ih =>
    intro acc v h
    simp only [digitsValue] at h
    split at h
    · have := ih _ _ h
      omega
    · simp at h

theorem loop_of_digitsValue : ∀ (ds : List Char) (acc v : Nat),
    digitsValue ds acc = some v → acc < 2 ^ 64 →
      ParseUint.loop ds acc = if v < 2 ^ 64 then .ok v else .error .ErrRange := by
  intro ds
  induction ds with
  | nil =>
    intro acc v h hacc
    simp only [digitsValue, Option.some.injEq] at h
    subst h
    rw [if_pos hacc]
    rfl
  | cons ch rest ih =>
    intro acc v h hacc
    simp only [digitsValue] at h
    split at h
    · rename_i hch
      have hge := digitsValue_ge _ _ _ h
      have hih := ih _ v h
      simp only [ParseUint.loop, hch, and_self, if_true]
      split_ifs with a b c d e
      all_goals first
        | rfl
        | (exfalso; omega)
        | (rw [hih (by omega)]; simp only [*, if_true, if_false])
    · simp at h

theorem Atoi_toString_ofNat (n : Nat) :
    Atoi (toString (n : Int)) =
      if n ≥ 2 ^ 63 then (2 ^ 63 - 1, some .ErrRange) else ((n : Int), none) := by
  have hdata : (toString (n : Int)).data = Nat.toDigits 10 n := rfl
  have hval := digitsValue_toDigits n
  have hne := toDigits_ne_nil n
  unfold Atoi
  rw [hdata]
  cases hl : Nat.toDigits 10 n with
  | nil => exact absurd hl hne
  | cons c0 rest =>
    rw [hl] at hval
    have hc0 : '0' ≤ c0 ∧ c0 ≤ '9' := by
      by_contra hc
      simp [digitsValue, hc] at hval
    have hplus : c0 ≠ '+' := by rintro rfl; exact absurd hc0 (by decide)
    have hminus : c0 ≠ '-' := by rintro rfl; exact absurd hc0 (by decide)
    have hloop := loop_of_digitsValue (c0 :: rest) 0 n hval (by decide)
    simp only [hplus, hminus, or_self, if_false, decide_False, ParseUint,
      List.cons_ne_nil, hloop]
    by_cases h64 : n < 2 ^ 64
    · simp only [if_pos h64]
      by_cases h63 : n ≥ 2 ^ 63
      · rw [if_pos h63]
        simp
        omega
      · rw [if_neg h63]
        simp
        omega
    · simp only [if_neg h64]
      have h63 : n ≥ 2 ^ 63 := by omega
      rw [if_pos h63]
      simp [h63]

theorem Atoi_toString_negSucc (m : Nat) :
    Atoi (toString (Int.negSucc m)) =
      if m + 1 > 2 ^ 63 then (-(2 ^ 63), some .ErrRange) else (Int.negSucc m, none) := by
  have hdata : (toString (Int.negSucc m)).data = '-' :: Nat.toDigits 10 (m + 1) := rfl
  have hval := digitsValue_toDigits (m + 1)
  have hne := toDigits_ne_nil (m + 1)
  have hloop := loop_of_digitsValue _ 0 (m + 1) hval (by decide)
  unfold Atoi
  rw [hdata]
  simp only [or_true, if_true, decide_True, ParseUint, hne, if_false, hloop]
  by_cases h64 : m + 1 < 2 ^ 64
  · simp only [if_pos h64]
    by_cases h63 : m + 1 > 2 ^ 63
    · rw [if_pos h63]
      simp
      omega
    · rw [if_neg h63]
      have h63b : ¬ (9223372036854775808 < m + 1) := by omega
      simp only [Bool.not_true, Bool.false_and, Bool.false_eq_true, if_false, Bool.true_and,
        decide_eq_true_eq, gt_iff_lt, Nat.reducePow, h63b, if_true, Prod.mk.injEq, and_true]
      rw [Int.negSucc_eq]
      push_cast
      ring
  · simp only [if_neg h64]
    have h63 : m + 1 > 2 ^ 63 := by omega
    rw [if_pos h63]
    simp

/-- The result of `Atoi` on the decimal representation of an integer. -/
theorem Atoi_toString (n : Int) :
    Atoi (toString n) =
      if n < -(2 ^ 63) then (-(2 ^ 63), some .ErrRange)
      else if n ≥ 2 ^ 63 then (2 ^ 63 - 1, some .ErrRange)
      else (n, none) := by
  cases n with
  | ofNat k =>
    have h := Atoi_toString_ofNat k
    simp only [Int.ofNat_eq_coe] at h ⊢
    rw [h]
    have h1 : ¬ ((k : Int) < -(2 ^ 63)) := by omega
    rw [if_neg h1]
    by_cases h63 : k ≥ 2 ^ 63
    · rw [if_pos h63, if_pos (by omega)]
    · rw [if_neg h63, if_neg (by omega)]
  | negSucc m =>
    rw [Atoi_toString_negSucc m]
    have hm : Int.negSucc m = -((m : Int) + 1) := Int.negSucc_eq m
    by_cases h63 : m + 1 > 2 ^ 63
    · rw [if_pos h63, if_pos (by omega)]
    · rw [if_neg h63, if_neg (by omega), if_neg (by omega)]

/-- An integer of the `int64` range is read back by `Atoi` from its decimal
representation. -/
theorem Atoi_toString_inRange (n : Int) (hlo : -(2 ^ 63) ≤ n) (hhi : n ≤ 2 ^ 63 - 1) :
    Atoi (toString n) = (n, none) := by
  rw [Atoi_toString n, if_neg (by omega), if_neg (by omega)]

/-! ## The retry loop of `GenerateQuote` -/

/-- First attempt succeeded: no second call. -/
theorem GenerateQuote_first_ok (up : Upstream) (c : OpenRouterClient) (tag : String)
    (w : World) (q : String)
    (h1 : (makeRequest up c (buildRequest c tag) w).1 = (q, none)) :
    GenerateQuote up c tag w =
      ((q, none), SetOpenRouterStatus true { w with calls := w.calls + 1 }) := by
  have hw := makeRequest_world up c (buildRequest c tag) w
  unfold GenerateQuote GenerateQuote.loop
  simp only [show ¬ (2 - (1 + 1) > 0) by decide, if_false]
  rcases hr : makeRequest up c (buildRequest c tag) w with ⟨⟨q1, o1⟩, w1⟩
  rw [hr] at h1 hw
  simp only [Prod.mk.injEq] at h1
  obtain ⟨rfl, rfl⟩ := h1
  simp only at hw
  rw [hw]

/-- First attempt failed with a non-retryable error: the loop is left at once. -/
theorem GenerateQuote_first_fatal (up : Upstream) (c : OpenRouterClient) (tag : String)
    (w : World) (s : String) (e : GoError)
    (h1 : (makeRequest up c (buildRequest c tag) w).1 = (s, some e))
    (hn : isRetryableError e = false) :
    GenerateQuote up c tag w =
      (("", some e), SetOpenRouterStatus false { w with calls := w.calls + 1 }) := by
  have hw := makeRequest_world up c (buildRequest c tag) w
  unfold GenerateQuote GenerateQuote.loop
  simp only [show ¬ (2 - (1 + 1) > 0) by decide, if_false]
  rcases hr : makeRequest up c (buildRequest c tag) w with ⟨⟨q1, o1⟩, w1⟩
  rw [hr] at h1 hw
  simp only [Prod.mk.injEq] at h1
  obtain ⟨rfl, rfl⟩ := h1
  simp only at hw
  simp [hn, GenerateQuote.giveUp, hw]

/-- First attempt failed with a retryable error: the outcome is decided by the second
attempt, made after a 500 ms wait. -/
theorem GenerateQuote_second (up : Upstream) (c : OpenRouterClient) (tag : String)
    (w : World) (s : String) (e : GoError)
    (h1 : (makeRequest up c (buildRequest c tag) w).1 = (s, some e))
    (hr1 : isRetryableError e = true) :
    GenerateQuote up c tag w =
      match (makeRequest up c (buildRequest c tag)
              (Sleep 500 { w with calls := w.calls + 1 })).1 with
      | (q, none) =>
        ((q, none), SetOpenRouterStatus true
          { w with calls := w.calls + 2, sleeps := 500 :: w.sleeps })
      | (_, some e2) =>
        (("", some e2), SetOpenRouterStatus false
          { w with calls := w.calls + 2, sleeps := 500 :: w.sleeps }) := by
  have hw := makeRequest_world up c (buildRequest c tag) w
  have hw2 := makeRequest_world up c (buildRequest c tag)
    (Sleep 500 { w with calls := w.calls + 1 })
  unfold GenerateQuote GenerateQuote.loop
  simp only [show ¬ (2 - (1 + 1) > 0) by decide, if_false]
  rcases hr : makeRequest up c (buildRequest c tag) w with ⟨⟨q1, o1⟩, w1⟩
  rw [hr] at h1 hw
  simp only [Prod.mk.injEq] at h1
  obtain ⟨rfl, rfl⟩ := h1
  simp only at hw
  subst hw
  simp only [hr1, Bool.not_true, Bool.false_eq_true, if_false]
  unfold GenerateQuote.loop
  simp only [show (2 - (0 + 1) > 0) by decide, if_true]
  rcases hr2 : makeRequest up c (buildRequest c tag)
      (Sleep 500 { w with calls := w.calls + 1 }) with ⟨⟨q2, o2⟩, w2⟩
  rw [hr2] at hw2
  simp only at hw2
  subst hw2
  cases o2 with
  | none => simp [Sleep]
  | some e2 =>
    by_cases hre : isRetryableError e2 = true
    · simp [hre, GenerateQuote.loop, GenerateQuote.giveUp, Sleep]
    · simp [hre, GenerateQuote.giveUp, Sleep]

/-! ## Claims about `isRetryableError` and `GenerateQuote` -/

/-- C1: `isRetryableError` is true exactly for an `HTTPError` whose status code is 429
or lies in 500..599; for every error that is not an `HTTPError` (all errors built with
`fmt.Errorf`: network, decode, embedded API error, empty choices, too-short quote) it
is false. -/
theorem isRetryableError_iff (err : GoError) :
    (isRetryableError err = true ↔
      ∃ e : HTTPError, err = .http e ∧
        (e.StatusCode = 429 ∨ (500 ≤ e.StatusCode ∧ e.StatusCode ≤ 599))) ∧
    (∀ msg : String, isRetryableError (.errorf msg) = false) := by
  refine ⟨?_, fun _ => rfl⟩
  cases err with
  | http e =>
    simp only [isRetryableError, Bool.or_eq_true, beq_iff_eq, Bool.and_eq_true,
      decide_eq_true_eq, GoError.http.injEq, exists_eq_left']
    constructor
    · rintro (h | ⟨h1, h2⟩)
      · exact Or.inl h
      · exact Or.inr ⟨h1, by omega⟩
    · rintro (h | ⟨h1, h2⟩)
      · exact Or.inl h
      · exact Or.inr ⟨h1, by omega⟩
  | errorf msg =>
    simp [isRetryableError]

/-- C2: if the first underlying call fails with a retryable error and the second call
(made after the 500 ms wait) succeeds with text `q`, `GenerateQuote` returns `q` with a
nil error, has made exactly two calls and one wait, and leaves the upstream-health
gauge at 1. -/
theorem GenerateQuote_retry_then_success (up : Upstream) (c : OpenRouterClient)
    (tag : String) (w : World) (s : String) (e : GoError) (q : String)
    (h1 : (makeRequest up c (buildRequest c tag) w).1 = (s, some e))
    (hr : isRetryableError e = true)
    (h2 : (makeRequest up c (buildRequest c tag)
            (Sleep 500 (makeRequest up c (buildRequest c tag) w).2)).1 = (q, none)) :
    GenerateQuote up c tag w =
      ((q, none),
       { metrics := { w.metrics with OpenRouterUp := 1 },
         calls := w.calls + 2,
         sleeps := 500 :: w.sleeps }) := by
  rw [makeRequest_world] at h2
  rw [GenerateQuote_second up c tag w s e h1 hr, h2]
  rfl

theorem GenerateQuote_retry_then_success_witness :
    (makeRequest (scripted answers500Then200 decodeJoy) testClient
        (buildRequest testClient "joy") World.start).1
      = ("", some (.http { StatusCode := 500, Message := [] })) ∧
    GenerateQuote (scripted answers500Then200 decodeJoy) testClient "joy" World.start =
      (("Joy is the simplest form of gratitude.", none),
       { metrics := { World.start.metrics with OpenRouterUp := 1 },
         calls := 2,
         sleeps := [500] }) :=
  ⟨by decide,
   GenerateQuote_retry_then_success (scripted answers500Then200 decodeJoy) testClient
     "joy" World.start "" (.http { StatusCode := 500, Message := [] })
     "Joy is the simplest form of gratitude." (by decide) (by decide) (by decide)⟩

/-- C3: if the first underlying call fails with a non-retryable error, `GenerateQuote`
makes exactly one call and no wait, returns the empty string with that same error, and
leaves the upstream-health gauge at 0. -/
theorem GenerateQuote_fatal_no_retry (up : Upstream) (c : OpenRouterClient)
    (tag : String) (w : World) (s : String) (e : GoError)
    (h1 : (makeRequest up c (buildRequest c tag) w).1 = (s, some e))
    (hn : isRetryableError e = false) :
    GenerateQuote up c tag w =
      (("", some e),
       { metrics := { w.metrics with OpenRouterUp := 0 },
         calls := w.calls + 1,
         sleeps := w.sleeps }) := by
  rw [GenerateQuote_first_fatal up c tag w s e h1 hn]
  rfl

theorem GenerateQuote_fatal_no_retry_witness :
    isRetryableError (.http { StatusCode := 400, Message := [] }) = false ∧
    GenerateQuote (scripted answers400 decodeJoy) testClient "joy" World.start =
      (("", some (.http { StatusCode := 400, Message := [] })),
       { metrics := { World.start.metrics with OpenRouterUp := 0 },
         calls := 1,
         sleeps := [] }) :=
  ⟨by decide,
   GenerateQuote_fatal_no_retry (scripted answers400 decodeJoy) testClient "joy"
     World.start "" (.http { StatusCode := 400, Message := [] }) (by decide) (by decide)⟩

/-- C4: whatever the upstream does, `GenerateQuote` makes at most two underlying calls;
and when the first call fails (retryably, so that a second one is made) and the second
call fails too, it returns the empty string with the error of the second call, after
two calls and one wait, and leaves the upstream-health gauge at 0. -/
theorem GenerateQuote_at_most_two_calls (up : Upstream) (c : OpenRouterClient)
    (tag : String) (w : World) :
    (GenerateQuote up c tag w).2.calls ≤ w.calls + 2 ∧
    ∀ (s1 s2 : String) (e1 e2 : GoError),
      (makeRequest up c (buildRequest c tag) w).1 = (s1, some e1) →
      isRetryableError e1 = true →
      (makeRequest up c (buildRequest c tag)
        (Sleep 500 (makeRequest up c (buildRequest c tag) w).2)).1 = (s2, some e2) →
      GenerateQuote up c tag w =
        (("", some e2),
         { metrics := { w.metrics with OpenRouterUp := 0 },
           calls := w.calls + 2,
           sleeps := 500 :: w.sleeps }) := by
  constructor
  · rcases h1 : (makeRequest up c (buildRequest c tag) w).1 with ⟨q1, _ | e1⟩
    · rw [GenerateQuote_first_ok up c tag w q1 h1]
      simp [SetOpenRouterStatus]
    · cases hr : isRetryableError e1 with
      | false =>
        rw [GenerateQuote_first_fatal up c tag w q1 e1 h1 hr]
        simp [SetOpenRouterStatus]
      | true =>
        rw [GenerateQuote_second up c tag w q1 e1 h1 hr]
        rcases (makeRequest up c (buildRequest c tag)
          (Sleep 500 { w with calls := w.calls + 1 })).1 with ⟨q2, _ | e2⟩
        · simp [SetOpenRouterStatus]
        · simp [SetOpenRouterStatus]
  · intro s1 s2 e1 e2 h1 hr h2
    rw [makeRequest_world] at h2
    rw [GenerateQuote_second up c tag w s1 e1 h1 hr, h2]
    rfl

theorem GenerateQuote_at_most_two_calls_witness :
    (GenerateQuote (scripted answers500Then503 decodeJoy) testClient "joy"
        World.start).2.calls ≤ 0 + 2 ∧
    GenerateQuote (scripted answers500Then503 decodeJoy) testClient "joy" World.start =
      (("", some (.http { StatusCode := 503, Message := [1] })),
       { metrics := { World.start.metrics with OpenRouterUp := 0 },
         calls := 2,
         sleeps := [500] }) :=
  ⟨(GenerateQuote_at_most_two_calls (scripted answers500Then503 decodeJoy) testClient
      "joy" World.start).1,
   (GenerateQuote_at_most_two_calls (scripted answers500Then503 decodeJoy) testClient
      "joy" World.start).2 "" "" (.http { StatusCode := 500, Message := [] })
      (.http { StatusCode := 503, Message := [1] }) (by decide) (by decide) (by decide)⟩

/-! ## Claims about `makeRequest` -/

/-- C5, as stated, fails on two inputs. A 200 response whose first choice is
`Sé feliz.` (9 characters, 10 bytes) makes the call succeed, and `GenerateQuote`
returns that 9-character text. A 200 response with an error object and the first choice
`Hello` fails with the API error, not with the too-short error. -/
theorem makeRequest_short_text_counterexample :
    ("Sé feliz.".length = 9 ∧
      (makeRequest (scripted answers200 decodeNineChars) testClient
        (buildRequest testClient "joy") World.start).1 = ("Sé feliz.", none) ∧
      (GenerateQuote (scripted answers200 decodeNineChars) testClient "joy"
        World.start).1 = ("Sé feliz.", none)) ∧
    ("Hello".length = 5 ∧
      (makeRequest (scripted answers200 decodeErrorAndChoice) testClient
        (buildRequest testClient "joy") World.start).1
        = ("", some (.errorf "API error: quota exceeded")) ∧
      GoError.errorf "API error: quota exceeded"
        ≠ GoError.errorf "generated quote is invalid or too short") := by
  decide

/-- C5, amended: for a 200 response whose payload has no error object and whose first
choice has fewer than 10 bytes, the call fails with the too-short error and
`GenerateQuote` returns that error after one call, without a wait; and every text that
`GenerateQuote` returns with a nil error has at least 10 bytes. -/
theorem GenerateQuote_short_text :
    (∀ (up : Upstream) (c : OpenRouterClient) (tag : String) (w : World) (body : Bytes)
        (resp : ChatCompletionResponse) (first : Choice) (rest : List Choice),
      up.received c (buildRequest c tag) w.calls = some (200, body) →
      up.unmarshal body = .ok resp →
      resp.Error = none →
      resp.Choices = first :: rest →
      len first.Message.Content < 10 →
      (makeRequest up c (buildRequest c tag) w).1
        = ("", some (.errorf "generated quote is invalid or too short")) ∧
      GenerateQuote up c tag w =
        (("", some (.errorf "generated quote is invalid or too short")),
         { metrics := { w.metrics with OpenRouterUp := 0 },
           calls := w.calls + 1,
           sleeps := w.sleeps })) ∧
    (∀ (up : Upstream) (c : OpenRouterClient) (tag : String) (w : World) (q : String),
      (GenerateQuote up c tag w).1 = (q, none) → 10 ≤ len q) := by
  constructor
  · intro up c tag w body resp first rest hrecv hdec herr hch hlen
    have h1 : (makeRequest up c (buildRequest c tag) w).1
        = ("", some (.errorf "generated quote is invalid or too short")) := by
      rw [makeRequest_of_received up c _ w 200 body hrecv]
      simp [StatusOK, hdec, herr, hch, hlen]
    refine ⟨h1, ?_⟩
    rw [GenerateQuote_first_fatal up c tag w "" _ h1 rfl]
    rfl
  · intro up c tag w q h
    rcases h1 : (makeRequest up c (buildRequest c tag) w).1 with ⟨q1, _ | e1⟩
    · rw [GenerateQuote_first_ok up c tag w q1 h1] at h
      simp only [Prod.mk.injEq, and_true] at h
      subst h
      exact makeRequest_ok_len up c _ w q1 h1
    · cases hr : isRetryableError e1 with
      | false =>
        rw [GenerateQuote_first_fatal up c tag w q1 e1 h1 hr] at h
        simp at h
      | true =>
        rw [GenerateQuote_second up c tag w q1 e1 h1 hr] at h
        rcases h2 : (makeRequest up c (buildRequest c tag)
          (Sleep 500 { w with calls := w.calls + 1 })).1 with ⟨q2, _ | e2⟩
        · rw [h2] at h
          simp only [Prod.mk.injEq, and_true] at h
          subst h
          exact makeRequest_ok_len up c _ _ q2 h2
        · rw [h2] at h
          simp at h

theorem GenerateQuote_short_text_witness :
    GenerateQuote (scripted answers200 decodeHello) testClient "joy" World.start =
      (("", some (.errorf "generated quote is invalid or too short")),
       { metrics := { World.start.metrics with OpenRouterUp := 0 },
         calls := 1,
         sleeps := [] }) ∧
    10 ≤ len "Joy is the simplest form of gratitude." :=
  ⟨(GenerateQuote_short_text.1 (scripted answers200 decodeHello) testClient "joy"
      World.start [] (payload ["Hello"])
      { Message := { Role := "assistant", Content := "Hello" }, FinishReason := "stop" }
      [] (by decide) rfl (by decide) (by decide) (by decide)).2,
   GenerateQuote_short_text.2 (scripted answers500Then200 decodeJoy) testClient "joy"
      World.start "Joy is the simplest form of gratitude." (by decide)⟩

/-- C6: whenever the response read from the upstream has a status outside 200..299,
whatever its body, the call fails with an `HTTPError` whose `StatusCode` is that status
and whose `Message` is the raw body. -/
theorem makeRequest_non2xx (up : Upstream) (c : OpenRouterClient)
    (request : ChatCompletionRequest) (w : World) (status : Int) (body : Bytes)
    (hrecv : up.received c request w.calls = some (status, body))
    (hst : ¬ (200 ≤ status ∧ status ≤ 299)) :
    (makeRequest up c request w).1
      = ("", some (.http { StatusCode := status, Message := body })) := by
  rw [makeRequest_of_received up c request w status body hrecv]
  have hne : status ≠ StatusOK := by
    intro h
    apply hst
    rw [h]
    decide
  simp [hne]

theorem makeRequest_non2xx_witness :
    (makeRequest (scripted answers500Then503 decodeJoy) testClient
        (buildRequest testClient "joy") { World.start with calls := 1 }).1
      = ("", some (.http { StatusCode := 503, Message := [1] })) :=
  makeRequest_non2xx (scripted answers500Then503 decodeJoy) testClient
    (buildRequest testClient "joy") { World.start with calls := 1 } 503 [1]
    (by decide) (by decide)

/-- C7, as stated, fails for status 201: the body decodes to a payload with no error
object, one choice and a first-choice content of 38 characters, yet the call fails with
an `HTTPError` of status 201. -/
theorem makeRequest_201_counterexample :
    (200 ≤ (201 : Int) ∧ (201 : Int) ≤ 299) ∧
    (payload ["Joy is the simplest form of gratitude."]).Error = none ∧
    (payload ["Joy is the simplest form of gratitude."]).Choices ≠ [] ∧
    10 ≤ "Joy is the simplest form of gratitude.".length ∧
    (scripted answers201 decodeJoy).received testClient (buildRequest testClient "joy")
      World.start.calls = some (201, []) ∧
    (makeRequest (scripted answers201 decodeJoy) testClient
        (buildRequest testClient "joy") World.start).1
      = ("", some (.http { StatusCode := 201, Message := [] })) := by
  decide

/-- C7, amended: for a response with status exactly 200 whose body decodes to a payload
with no error object, a non-empty choice list and a first-choice content of at least 10
bytes (so in particular of at least 10 characters), the call succeeds and returns
exactly that content; for a response with any other status, 201 through 299 included,
the call fails with an `HTTPError` carrying that status and the raw body. -/
theorem makeRequest_200_returns_first_choice (up : Upstream) (c : OpenRouterClient)
    (request : ChatCompletionRequest) (w : World) (status : Int) (body : Bytes)
    (hrecv : up.received c request w.calls = some (status, body)) :
    (status = 200 →
      ∀ (resp : ChatCompletionResponse) (first : Choice) (rest : List Choice),
        up.unmarshal body = .ok resp →
        resp.Error = none →
        resp.Choices = first :: rest →
        (10 ≤ len first.Message.Content ∨ 10 ≤ first.Message.Content.length) →
        (makeRequest up c request w).1 = (first.Message.Content, none)) ∧
    (status ≠ 200 →
      (makeRequest up c request w).1
        = ("", some (.http { StatusCode := status, Message := body }))) := by
  constructor
  · intro hst resp first rest hdec herr hch hlen
    subst hst
    rw [makeRequest_of_received up c request w 200 body hrecv]
    have hb : ¬ len first.Message.Content < 10 := by
      have := length_le_len first.Message.Content
      omega
    simp [StatusOK, hdec, herr, hch, hb]
  · intro hst
    rw [makeRequest_of_received up c request w status body hrecv]
    have hne : status ≠ StatusOK := hst
    simp [hne]

theorem makeRequest_200_returns_first_choice_witness :
    (len "Sé feliz." = 10 ∧
     (makeRequest (scripted answers200 decodeNineChars) testClient
        (buildRequest testClient "joy") World.start).1 = ("Sé feliz.", none)) ∧
    (makeRequest (scripted answers201 decodeJoy) testClient
        (buildRequest testClient "joy") World.start).1
      = ("", some (.http { StatusCode := 201, Message := [] })) :=
  ⟨⟨by decide,
    (makeRequest_200_returns_first_choice (scripted answers200 decodeNineChars)
      testClient (buildRequest testClient "joy") World.start 200 [] (by decide)).1 rfl
      (payload ["Sé feliz."])
      { Message := { Role := "assistant", Content := "Sé feliz." },
        FinishReason := "stop" }
      [] rfl (by decide) (by decide) (Or.inl (by decide))⟩,
   (makeRequest_200_returns_first_choice (scripted answers201 decodeJoy) testClient
      (buildRequest testClient "joy") World.start 201 [] (by decide)).2 (by decide)⟩

/-- C8: for a 200 response whose decoded payload carries an error object, the call fails
with `API error: ` followed by that object's message, whatever the choice list is; for
a 200 response with no error object and an empty choice list, it fails with the
no-choices error; neither error is retryable. -/
theorem makeRequest_payload_errors (up : Upstream) (c : OpenRouterClient)
    (request : ChatCompletionRequest) (w : World) (body : Bytes)
    (resp : ChatCompletionResponse)
    (hrecv : up.received c request w.calls = some (200, body))
    (hdec : up.unmarshal body = .ok resp) :
    (∀ apiErr : APIError, resp.Error = some apiErr →
      (makeRequest up c request w).1
        = ("", some (.errorf ("API error: " ++ apiErr.Message))) ∧
      isRetryableError (.errorf ("API error: " ++ apiErr.Message)) = false) ∧
    (resp.Error = none → resp.Choices = [] →
      (makeRequest up c request w).1
        = ("", some (.errorf "no choices returned from API")) ∧
      isRetryableError (.errorf "no choices returned from API") = false) := by
  constructor
  · intro apiErr herr
    refine ⟨?_, rfl⟩
    rw [makeRequest_of_received up c request w 200 body hrecv]
    simp [StatusOK, hdec, herr]
  · intro herr hch
    refine ⟨?_, rfl⟩
    rw [makeRequest_of_received up c request w 200 body hrecv]
    simp [StatusOK, hdec, herr, hch]

theorem makeRequest_payload_errors_witness :
    ((makeRequest (scripted answers200 decodeErrorAndChoice) testClient
        (buildRequest testClient "joy") World.start).1
      = ("", some (.errorf ("API error: " ++ "quota exceeded"))) ∧
     isRetryableError (.errorf ("API error: " ++ "quota exceeded")) = false) ∧
    ((makeRequest (scripted answers200 decodeNoChoices) testClient
        (buildRequest testClient "joy") World.start).1
      = ("", some (.errorf "no choices returned from API")) ∧
     isRetryableError (.errorf "no choices returned from API") = false) :=
  ⟨(makeRequest_payload_errors (scripted answers200 decodeErrorAndChoice) testClient
      (buildRequest testClient "joy") World.start []
      { payload ["Hello"] with
        Error := some { Message := "quota exceeded", Type_ := "rate", Code := "429" } }
      (by decide) rfl).1
      { Message := "quota exceeded", Type_ := "rate", Code := "429" } rfl,
   (makeRequest_payload_errors (scripted answers200 decodeNoChoices) testClient
      (buildRequest testClient "joy") World.start [] (payload [])
      (by decide) rfl).2 (by decide) (by decide)⟩

/-! ## Claims about the limit of `GetQuotes` -/

/-- The limit of the store query, in terms of the result of `Atoi`. -/
theorem storeQuery_limit (c : Context) :
    (GetQuotes.storeQuery c).limit =
      if (if (Atoi (c.DefaultQuery "limit" "20")).2 ≠ none ∨
              (Atoi (c.DefaultQuery "limit" "20")).1 < 1
          then 20 else (Atoi (c.DefaultQuery "limit" "20")).1) > 100
      then 100
      else (if (Atoi (c.DefaultQuery "limit" "20")).2 ≠ none ∨
              (Atoi (c.DefaultQuery "limit" "20")).1 < 1
            then 20 else (Atoi (c.DefaultQuery "limit" "20")).1) := by
  rfl

/-- The limit of the store query when the `limit` parameter is present. -/
theorem storeQuery_limit_of_param (c : Context) (s : String)
    (h : c.GetQuery "limit" = some s) :
    (GetQuotes.storeQuery c).limit =
      if (Atoi s).2 ≠ none ∨ (Atoi s).1 < 1 then 20
      else if (Atoi s).1 > 100 then 100 else (Atoi s).1 := by
  have hd : c.DefaultQuery "limit" "20" = s := by
    simp [Context.DefaultQuery, h]
  rw [storeQuery_limit, hd]
  by_cases h1 : (Atoi s).2 ≠ none ∨ (Atoi s).1 < 1
  · simp only [if_pos h1]
    decide
  · simp only [if_neg h1]

/-- C9: the limit handed to the store is 20 when the `limit` parameter is absent, 20
when `Atoi` reports an error for it, 20 when it parses to an integer below 1, and the
parsed integer itself when that lies in 1..100; in particular it is 20 for the decimal
representation of every integer below 1 and `n` for that of every `n` in 1..100. -/
theorem GetQuotes_limit_default :
    (∀ c : Context, c.GetQuery "limit" = none → (GetQuotes.storeQuery c).limit = 20) ∧
    (∀ (c : Context) (s : String), c.GetQuery "limit" = some s →
      (Atoi s).2 ≠ none → (GetQuotes.storeQuery c).limit = 20) ∧
    (∀ (c : Context) (s : String), c.GetQuery "limit" = some s →
      (Atoi s).2 = none → (Atoi s).1 < 1 → (GetQuotes.storeQuery c).limit = 20) ∧
    (∀ (c : Context) (s : String), c.GetQuery "limit" = some s →
      (Atoi s).2 = none → 1 ≤ (Atoi s).1 → (Atoi s).1 ≤ 100 →
      (GetQuotes.storeQuery c).limit = (Atoi s).1) ∧
    (∀ (c : Context) (n : Int), c.GetQuery "limit" = some (toString n) →
      n < 1 → (GetQuotes.storeQuery c).limit = 20) ∧
    (∀ (c : Context) (n : Int), c.GetQuery "limit" = some (toString n) →
      1 ≤ n → n ≤ 100 → (GetQuotes.storeQuery c).limit = n) := by
  refine ⟨?_, ?_, ?_, ?_, ?_, ?_⟩
  · intro c h
    have hd : c.DefaultQuery "limit" "20" = "20" := by
      simp [Context.DefaultQuery, h]
    rw [storeQuery_limit, hd]
    decide
  · intro c s h herr
    rw [storeQuery_limit_of_param c s h, if_pos (Or.inl herr)]
  · intro c s h _ hlt
    rw [storeQuery_limit_of_param c s h, if_pos (Or.inr hlt)]
  · intro c s h herr h1 h100
    have hn : ¬ ((Atoi s).2 ≠ none ∨ (Atoi s).1 < 1) := by
      rintro (h' | h')
      · exact h' herr
      · omega
    rw [storeQuery_limit_of_param c s h, if_neg hn, if_neg (by omega)]
  · intro c n h hlt
    rw [storeQuery_limit_of_param c _ h]
    by_cases hmin : n < -(2 ^ 63)
    · have hA : Atoi (toString n) = (-(2 ^ 63), some .ErrRange) := by
        rw [Atoi_toString n, if_pos hmin]
      rw [hA]
      decide
    · have hA : Atoi (toString n) = (n, none) := Atoi_toString_inRange n (by omega) (by omega)
      rw [hA]
      exact if_pos (Or.inr hlt)
  · intro c n h h1 h100
    have hA : Atoi (toString n) = (n, none) := Atoi_toString_inRange n (by omega) (by omega)
    have hn : ¬ ((n, (none : Option NumError)).2 ≠ none ∨
        (n, (none : Option NumError)).1 < 1) := by
      rintro (h' | h')
      · exact h' rfl
      · exact absurd h' (by simp only; omega)
    rw [storeQuery_limit_of_param c _ h, hA, if_neg hn]
    exact if_neg (by simp only; omega)

theorem GetQuotes_limit_default_witness :
    (GetQuotes.storeQuery { query := [("tag", "joy")] }).limit = 20 ∧
    (GetQuotes.storeQuery (limitContext "abc")).limit = 20 ∧
    (GetQuotes.storeQuery (limitContext "+0")).limit = 20 ∧
    (GetQuotes.storeQuery (limitContext "007")).limit = (Atoi "007").1 ∧
    (GetQuotes.storeQuery (limitContext (toString (-5 : Int)))).limit = 20 ∧
    (GetQuotes.storeQuery (limitContext (toString (57 : Int)))).limit = 57 :=
  ⟨GetQuotes_limit_default.1 { query := [("tag", "joy")] } (by decide),
   GetQuotes_limit_default.2.1 (limitContext "abc") "abc" (by decide) (by decide),
   GetQuotes_limit_default.2.2.1 (limitContext "+0") "+0" (by decide) (by decide)
     (by decide),
   GetQuotes_limit_default.2.2.2.1 (limitContext "007") "007" (by decide) (by decide)
     (by decide) (by decide),
   GetQuotes_limit_default.2.2.2.2.1 (limitContext (toString (-5 : Int))) (-5)
     (by decide) (by decide),
   GetQuotes_limit_default.2.2.2.2.2 (limitContext (toString (57 : Int))) 57
     (by decide) (by decide) (by decide)⟩

/-- C10, as stated, fails for the integer 2^63 = 9223372036854775808: it is greater
than 100, `Atoi` reports a range error for its decimal representation, and the limit
handed to the store is the default 20, not 100. -/
theorem GetQuotes_limit_clamp_counterexample :
    (100 : Int) < 9223372036854775808 ∧
    toString (9223372036854775808 : Int) = "9223372036854775808" ∧
    Atoi "9223372036854775808" = (9223372036854775807, some .ErrRange) ∧
    (GetQuotes.storeQuery (limitContext "9223372036854775808")).limit = 20 := by
  decide

/-- C10, amended: when the `limit` parameter is the decimal representation of an
integer `n` greater than 100, the limit handed to the store is exactly 100 as long as
`n` is at most 2^63 - 1, the largest `int`; for a larger `n` it is the default 20. -/
theorem GetQuotes_limit_clamp (c : Context) (n : Int)
    (h : c.GetQuery "limit" = some (toString n)) (hn : 100 < n) :
    (n ≤ 2 ^ 63 - 1 → (GetQuotes.storeQuery c).limit = 100) ∧
    (2 ^ 63 ≤ n → (GetQuotes.storeQuery c).limit = 20) := by
  constructor
  · intro hmax
    have hA : Atoi (toString n) = (n, none) := Atoi_toString_inRange n (by omega) (by omega)
    have hno : ¬ ((n, (none : Option NumError)).2 ≠ none ∨
        (n, (none : Option NumError)).1 < 1) := by
      rintro (h' | h')
      · exact h' rfl
      · exact absurd h' (by simp only; omega)
    rw [storeQuery_limit_of_param c _ h, hA, if_neg hno]
    exact if_pos (by simp only; omega)
  · intro hbig
    have hA : Atoi (toString n) = (2 ^ 63 - 1, some .ErrRange) := by
      rw [Atoi_toString n, if_neg (by omega), if_pos (by omega)]
    rw [storeQuery_limit_of_param c _ h, hA]
    decide

theorem GetQuotes_limit_clamp_witness :
    (GetQuotes.storeQuery (limitContext (toString (500 : Int)))).limit = 100 ∧
    (GetQuotes.storeQuery
      (limitContext (toString (18446744073709551716 : Int)))).limit = 20 :=
  ⟨(GetQuotes_limit_clamp (limitContext (toString (500 : Int))) 500 (by decide)
      (by decide)).1 (by decide),
   (GetQuotes_limit_clamp (limitContext (toString (18446744073709551716 : Int)))
      18446744073709551716 (by decide) (by decide)).2 (by decide)⟩

/-! ## Facts about `TrimSpace` -/

/-- The data of a trimmed string, with `List.rdropWhile`. -/
theorem TrimSpace_data (s : String) :
    (TrimSpace s).data = List.rdropWhile IsSpace (s.data.dropWhile IsSpace) := rfl

/-- A trimmed string does not start with white space. -/
theorem TrimSpace_head (s : String) (ch : Char)
    (h : (TrimSpace s).data.head? = some ch) : IsSpace ch = false := by
  rw [TrimSpace_data] at h
  obtain ⟨t, ht⟩ := List.rdropWhile_prefix IsSpace (s.data.dropWhile IsSpace)
  have hd := List.head?_dropWhile_not IsSpace s.data
  rw [← ht] at hd
  cases hr : List.rdropWhile IsSpace (s.data.dropWhile IsSpace) with
  | nil => rw [hr] at h; simp at h
  | cons x xs =>
    rw [hr] at h hd
    simp only [List.head?_cons, Option.some.injEq] at h
    subst h
    simpa using hd

/-- A trimmed string does not end with white space. -/
theorem TrimSpace_getLast (s : String) (ch : Char)
    (h : (TrimSpace s).data.getLast? = some ch) : IsSpace ch = false := by
  have hd := List.head?_dropWhile_not IsSpace (s.data.dropWhile IsSpace).reverse
  have hdata : (TrimSpace s).data
      = ((s.data.dropWhile IsSpace).reverse.dropWhile IsSpace).reverse := rfl
  rw [hdata, List.getLast?_reverse] at h
  rw [h] at hd
  exact hd

/-- Trimming yields the empty string exactly for a string of white space only. -/
theorem TrimSpace_eq_empty_iff (s : String) :
    TrimSpace s = "" ↔ ∀ ch ∈ s.data, IsSpace ch = true := by
  constructor
  · intro h
    have hdata : List.rdropWhile IsSpace (s.data.dropWhile IsSpace) = [] := by
      rw [← TrimSpace_data, h]
    rw [List.rdropWhile_eq_nil_iff] at hdata
    intro ch hch
    by_contra hns
    have hne : s.data.dropWhile IsSpace ≠ [] := by
      intro hnil
      rw [List.dropWhile_eq_nil_iff] at hnil
      exact hns (hnil ch hch)
    have hd := List.head?_dropWhile_not IsSpace s.data
    cases hm : s.data.dropWhile IsSpace with
    | nil => exact hne hm
    | cons x xs =>
      rw [hm] at hd hdata
      have hx := hdata x (List.mem_cons_self x xs)
      simp only [List.head?_cons] at hd
      rw [hd] at hx
      exact absurd hx (by decide)
  · intro h
    have hnil : s.data.dropWhile IsSpace = [] := by
      rw [List.dropWhile_eq_nil_iff]
      exact h
    apply String.ext
    rw [TrimSpace_data, hnil]
    rfl

/-- The byte length of the empty string only. -/
theorem len_eq_zero_iff (s : String) : len s = 0 ↔ s = "" := by
  constructor
  · intro h
    have := length_le_len s
    have hl : s.length = 0 := by omega
    apply String.ext
    exact List.length_eq_zero.mp hl
  · rintro rfl
    rfl

/-! ## Facts about `GenerateQuote` used by `CreateQuote` -/

/-- A text that `GenerateQuote` returns with a nil error has at least 10 bytes. -/
theorem GenerateQuote_ok_len (up : Upstream) (c : OpenRouterClient) (tag : String)
    (w : World) (q : String) (h : (GenerateQuote up c tag w).1 = (q, none)) :
    10 ≤ len q := by
  rcases h1 : (makeRequest up c (buildRequest c tag) w).1 with ⟨q1, _ | e1⟩
  · rw [GenerateQuote_first_ok up c tag w q1 h1] at h
    simp only [Prod.mk.injEq, and_true] at h
    subst h
    exact makeRequest_ok_len up c _ w q1 h1
  · cases hr : isRetryableError e1 with
    | false =>
      rw [GenerateQuote_first_fatal up c tag w q1 e1 h1 hr] at h
      simp at h
    | true =>
      rw [GenerateQuote_second up c tag w q1 e1 h1 hr] at h
      rcases h2 : (makeRequest up c (buildRequest c tag)
        (Sleep 500 { w with calls := w.calls + 1 })).1 with ⟨q2, _ | e2⟩
      · rw [h2] at h
        simp only [Prod.mk.injEq, and_true] at h
        subst h
        exact makeRequest_ok_len up c _ _ q2 h2
      · rw [h2] at h
        simp at h

/-- The only collector that `GenerateQuote` touches is the upstream-health gauge. -/
theorem GenerateQuote_metrics (up : Upstream) (c : OpenRouterClient) (tag : String)
    (w : World) :
    ∃ v : Int, (GenerateQuote up c tag w).2.metrics = { w.metrics with OpenRouterUp := v } := by
  rcases h1 : (makeRequest up c (buildRequest c tag) w).1 with ⟨q1, _ | e1⟩
  · rw [GenerateQuote_first_ok up c tag w q1 h1]
    exact ⟨1, rfl⟩
  · cases hr : isRetryableError e1 with
    | false =>
      rw [GenerateQuote_first_fatal up c tag w q1 e1 h1 hr]
      exact ⟨0, rfl⟩
    | true =>
      rw [GenerateQuote_second up c tag w q1 e1 h1 hr]
      rcases (makeRequest up c (buildRequest c tag)
        (Sleep 500 { w with calls := w.calls + 1 })).1 with ⟨q2, _ | e2⟩
      · exact ⟨1, rfl⟩
      · exact ⟨0, rfl⟩

/-! ## The branches of `CreateQuote` -/

theorem ShouldBindJSON_of_tag (host : Host) (c : Context) (req : CreateQuoteRequest)
    (hdec : host.decodeJSON c.body = .ok req) (hne : req.Tag ≠ "") :
    ShouldBindJSON host c = .ok req := by
  simp [ShouldBindJSON, hdec, hne]

theorem TrimSpace_empty : TrimSpace "" = "" := by
  decide

/-- A tag that is not empty after trimming was not empty before. -/
theorem tag_ne_empty_of_trim (t : String) (h : TrimSpace t ≠ "") : t ≠ "" := by
  rintro rfl
  exact h TrimSpace_empty

/-- The branch in which the binding fails. -/
theorem CreateQuote_of_bind_error (host : Host) (up : Upstream) (h : QuoteHandler)
    (c : Context) (a : App) (err : String)
    (hb : ShouldBindJSON host c = .error err) :
    CreateQuote host up h c a =
      ({ status := 400,
         body := .error { Error := "invalid_request",
                          Message := "Invalid JSON format: " ++ err } },
       a) := by
  unfold CreateQuote
  rw [hb]
  rfl

/-- The empty-tag branch. -/
theorem CreateQuote_of_blank (host : Host) (up : Upstream) (h : QuoteHandler)
    (c : Context) (a : App) (req : CreateQuoteRequest)
    (hb : ShouldBindJSON host c = .ok req) (hblank : TrimSpace req.Tag = "") :
    CreateQuote host up h c a =
      ({ status := 400,
         body := .error { Error := "invalid_tag", Message := "Tag cannot be empty" } },
       a) := by
  unfold CreateQuote
  rw [hb]
  simp only [hblank, if_true]
  rfl

/-- The over-long-tag branch. -/
theorem CreateQuote_of_long (host : Host) (up : Upstream) (h : QuoteHandler)
    (c : Context) (a : App) (req : CreateQuoteRequest)
    (hb : ShouldBindJSON host c = .ok req) (hne : TrimSpace req.Tag ≠ "")
    (hlong : len (TrimSpace req.Tag) > 50) :
    CreateQuote host up h c a =
      ({ status := 400,
         body := .error { Error := "invalid_tag",
                          Message := "Tag must be 50 characters or less" } },
       a) := by
  unfold CreateQuote
  rw [hb]
  simp only [hne, if_false, hlong, if_true]
  rfl

/-- The branch in which the client fails. -/
theorem CreateQuote_of_gen_error (host : Host) (up : Upstream) (h : QuoteHandler)
    (c : Context) (a : App) (req : CreateQuoteRequest) (s : String) (e : GoError)
    (hb : ShouldBindJSON host c = .ok req) (hne : TrimSpace req.Tag ≠ "")
    (hlen : ¬ len (TrimSpace req.Tag) > 50)
    (hgen : (GenerateQuote up h.OpenRouterClient (TrimSpace req.Tag) a.world).1
      = (s, some e)) :
    CreateQuote host up h c a =
      ({ status := 503,
         body := .error { Error := "quote_generation_failed",
                          Message := "Failed to generate quote. Please try again later." } },
       { world := RecordQuoteError
           (GenerateQuote up h.OpenRouterClient (TrimSpace req.Tag) a.world).2,
         db := a.db }) := by
  unfold CreateQuote
  rw [hb]
  simp only [hne, if_false, hlen]
  rcases hg : GenerateQuote up h.OpenRouterClient (TrimSpace req.Tag) a.world
    with ⟨⟨q1, o1⟩, w1⟩
  rw [hg] at hgen
  simp only [Prod.mk.injEq] at hgen
  obtain ⟨rfl, rfl⟩ := hgen
  rfl

/-- The branch in which the client returns a text: the state after `CreateQuote`. -/
theorem CreateQuote_of_gen_ok (host : Host) (up : Upstream) (h : QuoteHandler)
    (c : Context) (a : App) (req : CreateQuoteRequest) (q : String)
    (hb : ShouldBindJSON host c = .ok req) (hne : TrimSpace req.Tag ≠ "")
    (hlen : ¬ len (TrimSpace req.Tag) > 50)
    (hgen : (GenerateQuote up h.OpenRouterClient (TrimSpace req.Tag) a.world).1
      = (q, none)) :
    (CreateQuote host up h c a).2 =
      { world := RecordLatency ((host.since : Rat) / 1000000000)
          (RecordQuoteFetched (TrimSpace req.Tag)
            (GenerateQuote up h.OpenRouterClient (TrimSpace req.Tag) a.world).2),
        db := (Store.Create host a.db
          (CreateQuote.record host c (TrimSpace req.Tag) q)).2 } := by
  unfold CreateQuote
  rw [hb]
  simp only [hne, if_false, hlen]
  rcases hg : GenerateQuote up h.OpenRouterClient (TrimSpace req.Tag) a.world
    with ⟨⟨q1, o1⟩, w1⟩
  rw [hg] at hgen
  simp only [Prod.mk.injEq] at hgen
  obtain ⟨rfl, rfl⟩ := hgen
  simp only
  rcases hc : Store.Create host a.db
      { ID := uuidNil, Tag := TrimSpace req.Tag, TagSource := GetTagSource (TrimSpace req.Tag),
        QuoteText := q1, Author := none, Source := "openrouter", CreatedAt := host.now,
        LatencyMs := ((host.since / 1000000 : Nat) : Int), ClientIP := c.clientIP,
        UserAgent := c.GetHeader "User-Agent" } with ⟨⟨q2, _ | e2⟩, db2⟩
  · simp only [CreateQuote.record, hc]
  · simp only [CreateQuote.record, hc]

/-- What `Create` does to the table: the record is noted as handed over, and the record
as the hook left it is appended unless the insert fails. -/
theorem Store_Create_db (host : Host) (db : Store) (quote : Quote) :
    (Store.Create host db quote).2.handed = quote :: db.handed ∧
    ((Store.Create host db quote).2.rows = db.rows ∨
     (Store.Create host db quote).2.rows = db.rows ++ [quote.BeforeCreate host.newUUID]) := by
  unfold Store.Create
  simp only
  split
  · exact ⟨rfl, Or.inl rfl⟩
  · exact ⟨rfl, Or.inr rfl⟩

/-- The hook changes nothing but the identifier. -/
theorem BeforeCreate_fields (q : Quote) (newID : String) :
    (q.BeforeCreate newID).Tag = q.Tag ∧ (q.BeforeCreate newID).QuoteText = q.QuoteText := by
  unfold Quote.BeforeCreate
  split <;> exact ⟨rfl, rfl⟩

/-! ## Claims about the tag validation of `CreateQuote` -/

/-- C11, as stated, fails for the empty string: the tag `""` is empty after trimming,
yet the response is 400 with kind `invalid_request`, produced by the `required`
binding of the field `Tag`, and not 400 with kind `invalid_tag`. -/
theorem CreateQuote_empty_tag_counterexample :
    (hostWithTag "").decodeJSON postContext.body = .ok { Tag := "", Requestor := "" } ∧
    TrimSpace "" = "" ∧
    CreateQuote (hostWithTag "") (scripted answers200 decodeJoy) testHandler postContext
        App.start =
      ({ status := 400,
         body := .error
           { Error := "invalid_request",
             Message := "Invalid JSON format: Key: 'CreateQuoteRequest.Tag' Error:Field validation for 'Tag' failed on the 'required' tag" } },
       App.start) :=
  ⟨rfl, by decide, by decide⟩

/-- C11, amended: for a request whose body decodes and whose tag is empty after
trimming, `CreateQuote` responds 400 and leaves the whole state as it was (no client
call, nothing persisted); the kind is `invalid_tag` when the tag is a non-empty string
of white space, and `invalid_request` when the tag is the empty string. -/
theorem CreateQuote_blank_tag (host : Host) (up : Upstream) (h : QuoteHandler)
    (c : Context) (a : App) (req : CreateQuoteRequest)
    (hdec : host.decodeJSON c.body = .ok req) (hblank : TrimSpace req.Tag = "") :
    (req.Tag ≠ "" →
      CreateQuote host up h c a =
        ({ status := 400,
           body := .error { Error := "invalid_tag", Message := "Tag cannot be empty" } },
         a)) ∧
    (req.Tag = "" →
      (CreateQuote host up h c a).1.status = 400 ∧
      (∃ msg, (CreateQuote host up h c a).1.body
        = .error { Error := "invalid_request", Message := msg }) ∧
      (CreateQuote host up h c a).2 = a) := by
  constructor
  · intro hne
    exact CreateQuote_of_blank host up h c a req
      (ShouldBindJSON_of_tag host c req hdec hne) hblank
  · intro he
    have hb : ShouldBindJSON host c = .error
        "Key: 'CreateQuoteRequest.Tag' Error:Field validation for 'Tag' failed on the 'required' tag" := by
      simp [ShouldBindJSON, hdec, he]
    unfold CreateQuote
    rw [hb]
    exact ⟨rfl, ⟨_, rfl⟩, rfl⟩

theorem CreateQuote_blank_tag_witness :
    CreateQuote (hostWithTag " \t\n ") (scripted answers200 decodeJoy) testHandler
        postContext App.start =
      ({ status := 400,
         body := .error { Error := "invalid_tag", Message := "Tag cannot be empty" } },
       App.start) :=
  (CreateQuote_blank_tag (hostWithTag " \t\n ") (scripted answers200 decodeJoy)
    testHandler postContext App.start { Tag := " \t\n ", Requestor := "" } rfl
    (by decide)).1 (by decide)

/-- C12: for a request whose body decodes and whose tag, after trimming, has more than
50 characters, `CreateQuote` responds 400 with kind `invalid_tag` and leaves the whole
state as it was (no client call, nothing persisted). -/
theorem CreateQuote_long_tag (host : Host) (up : Upstream) (h : QuoteHandler)
    (c : Context) (a : App) (req : CreateQuoteRequest)
    (hdec : host.decodeJSON c.body = .ok req)
    (hlong : 50 < (TrimSpace req.Tag).length) :
    CreateQuote host up h c a =
      ({ status := 400,
         body := .error { Error := "invalid_tag",
                          Message := "Tag must be 50 characters or less" } },
       a) := by
  have hle := length_le_len (TrimSpace req.Tag)
  have hne : TrimSpace req.Tag ≠ "" := by
    intro he
    rw [he] at hlong
    exact absurd hlong (by decide)
  exact CreateQuote_of_long host up h c a req
    (ShouldBindJSON_of_tag host c req hdec (tag_ne_empty_of_trim _ hne)) hne (by omega)

theorem CreateQuote_long_tag_witness :
    (TrimSpace tag51).length = 51 ∧
    CreateQuote (hostWithTag tag51) (scripted answers200 decodeJoy) testHandler
        postContext App.start =
      ({ status := 400,
         body := .error { Error := "invalid_tag",
                          Message := "Tag must be 50 characters or less" } },
       App.start) :=
  ⟨by decide,
   CreateQuote_long_tag (hostWithTag tag51) (scripted answers200 decodeJoy) testHandler
     postContext App.start { Tag := tag51, Requestor := "" } rfl (by decide)⟩

/-- C13 fails on the code: the tag made of 26 letters `é` is unchanged by trimming and
has 26 characters, between 1 and 50, yet it takes 52 bytes and `CreateQuote` answers
400 with kind `invalid_tag` and the message `Tag must be 50 characters or less`, without
calling the client. -/
theorem CreateQuote_rejects_26_characters :
    TrimSpace tag26 = tag26 ∧ tag26.length = 26 ∧ len tag26 = 52 ∧
    CreateQuote (hostWithTag tag26) (scripted answers200 decodeJoy) testHandler
        postContext App.start =
      ({ status := 400,
         body := .error { Error := "invalid_tag",
                          Message := "Tag must be 50 characters or less" } },
       App.start) := by
  decide

/-! ## Claims about the tag catalog -/

theorem IsValidTag_loop_iff (tag : String) (tags : List String) :
    IsValidTag.loop tag tags = true ↔ tag ∈ tags := by
  induction tags with
  | nil => simp [IsValidTag.loop]
  | cons t rest ih =>
    simp only [IsValidTag.loop, List.mem_cons]
    by_cases h : tag = t
    · simp [h]
    · simp [h, ih]

/-- C14: `GetTagSource` returns `preset` for every element of `ValidTags` and `custom`
for every other string, the empty string included; it returns `preset` exactly when
`IsValidTag` is true, and never anything but `preset` or `custom`. -/
theorem GetTagSource_spec (tag : String) :
    (tag ∈ ValidTags → GetTagSource tag = "preset") ∧
    (tag ∉ ValidTags → GetTagSource tag = "custom") ∧
    GetTagSource "" = "custom" ∧
    (GetTagSource tag = "preset" ↔ IsValidTag tag = true) ∧
    (GetTagSource tag = "preset" ∨ GetTagSource tag = "custom") := by
  have hiff : IsValidTag tag = true ↔ tag ∈ ValidTags := IsValidTag_loop_iff tag ValidTags
  refine ⟨?_, ?_, by decide, ?_, ?_⟩
  · intro hmem
    simp [GetTagSource, hiff.mpr hmem]
  · intro hmem
    have hf : IsValidTag tag = false := by
      cases hv : IsValidTag tag with
      | false => rfl
      | true => exact absurd (hiff.mp hv) hmem
    simp [GetTagSource, hf]
  · cases hv : IsValidTag tag with
    | false =>
      simp only [GetTagSource, hv, Bool.false_eq_true, if_false, iff_false]
      decide
    | true => simp [GetTagSource, hv]
  · cases hv : IsValidTag tag with
    | false => exact Or.inr (by simp [GetTagSource, hv])
    | true => exact Or.inl (by simp [GetTagSource, hv])

theorem GetTagSource_spec_witness :
    GetTagSource "gratitude" = "preset" ∧ GetTagSource "Joy" = "custom" :=
  ⟨(GetTagSource_spec "gratitude").1 (by decide),
   (GetTagSource_spec "Joy").2.1 (by decide)⟩

/-- C15: `ValidTags` has at least 20 and at most 30 entries, and no entry occurs
twice. -/
theorem ValidTags_count_and_nodup :
    20 ≤ ValidTags.length ∧ ValidTags.length ≤ 30 ∧ ValidTags.Nodup := by
  decide

/-! ## Claims about the records and the failure path of `CreateQuote` -/

/-- C16: every record that `CreateQuote` passes to `Create`, and every row it adds to
the table, has a tag without leading or trailing white space whose length in bytes is
between 1 and 50, and a quote text of at least 10 bytes; this holds for every request,
every upstream and every outcome of the insert. -/
theorem CreateQuote_record_invariant (host : Host) (up : Upstream) (h : QuoteHandler)
    (c : Context) (a : App) (q : Quote)
    (hq : q ∈ (CreateQuote host up h c a).2.db.handed ∨
          q ∈ (CreateQuote host up h c a).2.db.rows) :
    (q ∈ a.db.handed ∨ q ∈ a.db.rows) ∨
    ((∀ ch, q.Tag.data.head? = some ch → IsSpace ch = false) ∧
     (∀ ch, q.Tag.data.getLast? = some ch → IsSpace ch = false) ∧
     1 ≤ len q.Tag ∧ len q.Tag ≤ 50 ∧ 10 ≤ len q.QuoteText) := by
  cases hb : ShouldBindJSON host c with
  | error err =>
    rw [CreateQuote_of_bind_error host up h c a err hb] at hq
    exact Or.inl hq
  | ok req =>
    by_cases hne : TrimSpace req.Tag = ""
    · rw [CreateQuote_of_blank host up h c a req hb hne] at hq
      exact Or.inl hq
    · by_cases hlen : len (TrimSpace req.Tag) > 50
      · rw [CreateQuote_of_long host up h c a req hb hne hlen] at hq
        exact Or.inl hq
      · rcases hg : (GenerateQuote up h.OpenRouterClient (TrimSpace req.Tag) a.world).1
          with ⟨q1, _ | e1⟩
        · rw [CreateQuote_of_gen_ok host up h c a req q1 hb hne hlen hg] at hq
          simp only at hq
          have hc := Store_Create_db host a.db
            (CreateQuote.record host c (TrimSpace req.Tag) q1)
          have hf := BeforeCreate_fields
            (CreateQuote.record host c (TrimSpace req.Tag) q1) host.newUUID
          have hpos : 1 ≤ len (TrimSpace req.Tag) := by
            have := len_eq_zero_iff (TrimSpace req.Tag)
            by_contra hz
            exact hne (this.mp (by omega))
          have htext := GenerateQuote_ok_len up h.OpenRouterClient _ a.world q1 hg
          have hinv : ∀ r : Quote, r.Tag = TrimSpace req.Tag → r.QuoteText = q1 →
              ((∀ ch, r.Tag.data.head? = some ch → IsSpace ch = false) ∧
               (∀ ch, r.Tag.data.getLast? = some ch → IsSpace ch = false) ∧
               1 ≤ len r.Tag ∧ len r.Tag ≤ 50 ∧ 10 ≤ len r.QuoteText) := by
            intro r ht hx
            rw [ht, hx]
            exact ⟨TrimSpace_head req.Tag, TrimSpace_getLast req.Tag, hpos, by omega, htext⟩
          rcases hq with hq | hq
          · rw [hc.1, List.mem_cons] at hq
            rcases hq with rfl | hq
            · exact Or.inr (hinv _ rfl rfl)
            · exact Or.inl (Or.inl hq)
          · rcases hc.2 with hr | hr
            · rw [hr] at hq
              exact Or.inl (Or.inr hq)
            · rw [hr, List.mem_append, List.mem_singleton] at hq
              rcases hq with hq | rfl
              · exact Or.inl (Or.inr hq)
              · exact Or.inr (hinv _ hf.1 hf.2)
        · rw [CreateQuote_of_gen_error host up h c a req q1 e1 hb hne hlen hg] at hq
          exact Or.inl hq

theorem CreateQuote_record_invariant_witness :
    (CreateQuote (hostWithTag " joy ") (scripted answers200 decodeJoy) testHandler
        postContext App.start).2.db.handed
      = [CreateQuote.record (hostWithTag " joy ") postContext "joy"
          "Joy is the simplest form of gratitude."] ∧
    ((CreateQuote.record (hostWithTag " joy ") postContext "joy"
          "Joy is the simplest form of gratitude." ∈ App.start.db.handed ∨
      CreateQuote.record (hostWithTag " joy ") postContext "joy"
          "Joy is the simplest form of gratitude." ∈ App.start.db.rows) ∨
     ((∀ ch, "joy".data.head? = some ch → IsSpace ch = false) ∧
      (∀ ch, "joy".data.getLast? = some ch → IsSpace ch = false) ∧
      1 ≤ len "joy" ∧ len "joy" ≤ 50 ∧
      10 ≤ len "Joy is the simplest form of gratitude.")) :=
  ⟨by decide,
   CreateQuote_record_invariant (hostWithTag " joy ") (scripted answers200 decodeJoy)
     testHandler postContext App.start
     (CreateQuote.record (hostWithTag " joy ") postContext "joy"
        "Joy is the simplest form of gratitude.")
     (Or.inl (by decide))⟩

/-- C17: for a request that passes validation (the body decodes, the trimmed tag is
not empty and has at most 50 bytes), if `GenerateQuote` returns an error, `CreateQuote`
responds 503 with kind `quote_generation_failed`, adds exactly 1 to the fetch-error
counter, leaves the fetch-success counters and the latency histogram as they were, and
leaves the table as it was, with no record handed to it. -/
theorem CreateQuote_generation_failed (host : Host) (up : Upstream) (h : QuoteHandler)
    (c : Context) (a : App) (req : CreateQuoteRequest) (s : String) (e : GoError)
    (hdec : host.decodeJSON c.body = .ok req)
    (hne : TrimSpace req.Tag ≠ "")
    (hlen : len (TrimSpace req.Tag) ≤ 50)
    (hgen : (GenerateQuote up h.OpenRouterClient (TrimSpace req.Tag) a.world).1
      = (s, some e)) :
    (CreateQuote host up h c a).1 =
      { status := 503,
        body := .error { Error := "quote_generation_failed",
                         Message := "Failed to generate quote. Please try again later." } } ∧
    (CreateQuote host up h c a).2.world.metrics.QuoteFetchErrorsTotal
      = a.world.metrics.QuoteFetchErrorsTotal + 1 ∧
    (CreateQuote host up h c a).2.world.metrics.QuotesFetchedTotal
      = a.world.metrics.QuotesFetchedTotal ∧
    (CreateQuote host up h c a).2.world.metrics.QuotesByTag
      = a.world.metrics.QuotesByTag ∧
    (CreateQuote host up h c a).2.world.metrics.QuoteFetchLatency
      = a.world.metrics.QuoteFetchLatency ∧
    (CreateQuote host up h c a).2.db = a.db := by
  have hb := ShouldBindJSON_of_tag host c req hdec (tag_ne_empty_of_trim _ hne)
  rw [CreateQuote_of_gen_error host up h c a req s e hb hne (by omega) hgen]
  obtain ⟨v, hv⟩ := GenerateQuote_metrics up h.OpenRouterClient (TrimSpace req.Tag) a.world
  refine ⟨rfl, ?_, ?_, ?_, ?_, rfl⟩
  all_goals simp only [RecordQuoteError, hv]

theorem CreateQuote_generation_failed_witness :
    (CreateQuote (hostWithTag " joy ") (scripted answers500Then503 decodeJoy)
        testHandler postContext App.start).1 =
      { status := 503,
        body := .error { Error := "quote_generation_failed",
                         Message := "Failed to generate quote. Please try again later." } } ∧
    (CreateQuote (hostWithTag " joy ") (scripted answers500Then503 decodeJoy)
        testHandler postContext App.start).2.world.metrics.QuoteFetchErrorsTotal
      = App.start.world.metrics.QuoteFetchErrorsTotal + 1 ∧
    (CreateQuote (hostWithTag " joy ") (scripted answers500Then503 decodeJoy)
        testHandler postContext App.start).2.world.metrics.QuotesFetchedTotal
      = App.start.world.metrics.QuotesFetchedTotal ∧
    (CreateQuote (hostWithTag " joy ") (scripted answers500Then503 decodeJoy)
        testHandler postContext App.start).2.world.metrics.QuotesByTag
      = App.start.world.metrics.QuotesByTag ∧
    (CreateQuote (hostWithTag " joy ") (scripted answers500Then503 decodeJoy)
        testHandler postContext App.start).2.world.metrics.QuoteFetchLatency
      = App.start.world.metrics.QuoteFetchLatency ∧
    (CreateQuote (hostWithTag " joy ") (scripted answers500Then503 decodeJoy)
        testHandler postContext App.start).2.db = App.start.db :=
  CreateQuote_generation_failed (hostWithTag " joy ")
    (scripted answers500Then503 decodeJoy) testHandler postContext App.start
    { Tag := " joy ", Requestor := "" } "" (.http { StatusCode := 503, Message := [1] })
    rfl (by decide) (by decide) (by decide)

end QuoteBox
